import Mathlib

/-!
Shallow embedding of the InvoiceTaxApp core (BusinessTaxCalculator in
calculator-py.py and PdfInvoiceExtractor in pdf-extractor-py.py) and proofs
about it.

Modelling conventions:
* Python machine-level exceptions are modelled with an explicit error type
  `PyErr`; code that can raise is given the type `Except PyErr α`.
  Catch blocks become matches on the `Except` value.
* Python `float` amounts and tax rates are modelled as `Rat`; the JSON file
  content is modelled structurally as a `Json` tree (Python's json.dump
  followed by json.load round-trips numbers and strings exactly, which the
  structural model reflects).
* Fields that Python stores without conversion (invoice description and id,
  the three configuration fields, which receive raw JSON values on load)
  are typed as `Json` in the state, mirroring Python's dynamic typing.
* Strings are handled at the `List Char` level; `str.split`, `int(...)`,
  `float(...)` and `%0Nd` formatting are modelled by explicit functions
  faithful on the domains the program uses them on.
-/

namespace InvoiceTax

/-- Python exception classes that the embedded code can raise or catch. -/
inductive PyErr where
  | valueError (msg : String)
  | keyError
  | indexError
  | typeError
  | attributeError
  | nameError
  | overflowError
  deriving DecidableEq, Repr

/-- `datetime.date`: a plain (year, month, day) triple.  Python's
`datetime.date` values are always calendar-valid; validity is tracked by
`Date.valid` and enforced at every construction site (`pyDate`). -/
structure Date where
  year : Int
  month : Int
  day : Int
  deriving DecidableEq, Repr

/-- `calendar.isleap` / the implicit leap rule of `datetime`. -/
def isLeapYear (y : Int) : Bool :=
  y % 4 == 0 && (y % 100 != 0 || y % 400 == 0)

/-- `calendar.monthrange(y, m)[1]`: number of days of month `m` of year `y`. -/
def daysInMonth (y m : Int) : Int :=
  if m = 2 then (if isLeapYear y then 29 else 28)
  else if m = 4 || m = 6 || m = 9 || m = 11 then 30
  else 31

/-- The validity check performed by the `datetime.date` constructor
(year in MINYEAR..MAXYEAR = 1..9999, month in 1..12, day in range). -/
def pyDateValid (y m d : Int) : Bool :=
  decide (1 ≤ y) && decide (y ≤ 9999) && decide (1 ≤ m) && decide (m ≤ 12)
    && decide (1 ≤ d) && decide (d ≤ daysInMonth y m)

/-- CPython parses the `datetime.date` arguments as C ints: a Python int
outside the 32-bit range raises `OverflowError` before any date
validation. -/
def fitsCInt (n : Int) : Bool :=
  decide (-2147483648 ≤ n ∧ n ≤ 2147483647)

/-- `datetime.date(y, m, d)`: raises `OverflowError` when a component does
not fit a C int, and `ValueError` on an invalid date. -/
def pyDate (y m d : Int) : Except PyErr Date :=
  if fitsCInt y && fitsCInt m && fitsCInt d then
    (if pyDateValid y m d then .ok ⟨y, m, d⟩
     else .error (.valueError "invalid date"))
  else .error .overflowError

def Date.valid (d : Date) : Bool := pyDateValid d.year d.month d.day

/-- Python `date` comparison: lexicographic on (year, month, day). -/
def dateLe (a b : Date) : Bool :=
  decide (a.year < b.year ∨ (a.year = b.year ∧
    (a.month < b.month ∨ (a.month = b.month ∧ a.day ≤ b.day))))

/-! ### Characters, digits, `int()`, `float()`, `str.split` -/

def digitChar (n : Nat) : Char := Char.ofNat (48 + n)

def charDigitVal (c : Char) : Option Nat :=
  if 48 ≤ c.toNat ∧ c.toNat ≤ 57 then some (c.toNat - 48) else none

def isWs (c : Char) : Bool := c == ' ' || c == '\t' || c == '\n' || c == '\r'

def trimWs (l : List Char) : List Char :=
  ((l.dropWhile isWs).reverse.dropWhile isWs).reverse

def parseDigitsGo : List Char → Nat → Option Nat
  | [], acc => some acc
  | c :: cs, acc =>
    match charDigitVal c with
    | some d => parseDigitsGo cs (acc * 10 + d)
    | none => none

/-- Value of a nonempty all-digit character list; `none` otherwise. -/
def parseDigits (l : List Char) : Option Nat :=
  match l with
  | [] => none
  | _ => parseDigitsGo l 0

/-- Tail of the PEP 515 digit-group check; the flag records whether the
previous character was an underscore (an underscore may not follow another
underscore and may not end the group, and every other character must be a
digit). -/
def digitsUGo : Bool → List Char → Bool
  | pu, [] => !pu
  | pu, c :: cs =>
    if c == '_' then
      if pu then false else digitsUGo true cs
    else (charDigitVal c).isSome && digitsUGo false cs

/-- A nonempty digit group with PEP 515 underscores: starts with a digit,
underscores only between digits (no leading, trailing or doubled
underscore). -/
def digitsUValid (l : List Char) : Bool :=
  match l with
  | [] => false
  | c :: _ => (charDigitVal c).isSome && digitsUGo false l

/-- Value of a PEP 515 digit group (`int("2_024") = 2024`). -/
def parseDigitsU (l : List Char) : Option Nat :=
  if digitsUValid l then parseDigits (l.filter (fun c => !(c == '_'))) else none

/-- Python `int(s)` on a string: optional surrounding whitespace, optional
sign, then decimal digits with PEP 515 underscores; anything else raises
`ValueError` (`none`).  (Unicode digits and exotic whitespace are not
modelled.) -/
def pyIntChars (l : List Char) : Option Int :=
  match trimWs l with
  | [] => none
  | c :: r =>
    if c == '-' then (parseDigitsU r).map (fun n => -(n : Int))
    else if c == '+' then (parseDigitsU r).map (fun n => (n : Int))
    else (parseDigitsU (c :: r)).map (fun n => (n : Int))

/-- `str.split(sep)` for a one-character separator: splits on every
occurrence, keeping empty pieces (`"".split(s) = [""]`). -/
def splitChars (sep : Char) : List Char → List (List Char)
  | [] => [[]]
  | c :: cs =>
    match splitChars sep cs with
    | [] => [[]]
    | h :: t => if c == sep then [] :: h :: t else (c :: h) :: t

/-- Digits-and-dots string value, as accepted by Python `float` after the
extractor's cleanup `re.sub(r'[^\d.]', '', s)` has removed every other
character (in particular all signs, exponent markers, letters and
underscores): at most one dot, at least one digit.  On this cleaned domain
it agrees with the full `float` grammar. -/
def parseFloatDigits (l : List Char) : Option Rat :=
  match splitChars '.' l with
  | [ip, fp] =>
    match parseDigits ip, parseDigits fp with
    | some i, some f => some ((i : Rat) + (f : Rat) / (10 : Rat) ^ fp.length)
    | some i, none => if fp.isEmpty then some ((i : Rat)) else none
    | none, some f => if ip.isEmpty then some ((f : Rat) / (10 : Rat) ^ fp.length) else none
    | none, none => none
  | [ip] => (parseDigits ip).map (fun n => ((n : Rat)))
  | _ => none

/-- Result of Python `float(s)`: a finite value, an infinity, or nan. -/
inductive PyFloatVal where
  | finite (q : Rat)
  | inf
  | negInf
  | nan
  deriving DecidableEq, Repr

/-- Split a string at the first exponent marker `e`/`E`. -/
def splitExp : List Char → (List Char × Option (List Char))
  | [] => ([], none)
  | c :: cs =>
    if c == 'e' || c == 'E' then ([], some cs)
    else
      let p := splitExp cs
      (c :: p.fst, p.snd)

/-- Exponent part after the marker: optional sign then a digit group. -/
def parseExp (l : List Char) : Option Int :=
  match l with
  | [] => none
  | c :: r =>
    if c == '-' then (parseDigitsU r).map (fun n => -(n : Int))
    else if c == '+' then (parseDigitsU r).map (fun n => (n : Int))
    else (parseDigitsU (c :: r)).map (fun n => (n : Int))

/-- Unsigned numeric part of the `float` grammar:
`(digits [. [digits]] | . digits) [e [sign] digits]` with PEP 515
underscores inside every digit group.  The value is the exact rational
`mantissa * 10 ^ exponent` (IEEE double rounding, and the overflow of huge
exponents to infinity, are idealized away, as everywhere in this
rational-valued model). -/
def parseFloatNum (l : List Char) : Option Rat :=
  let p := splitExp l
  let expVal : Option Int :=
    match p.snd with
    | none => some 0
    | some ex => parseExp ex
  match expVal with
  | none => none
  | some ev =>
    let base : Option Rat :=
      match splitChars '.' p.fst with
      | [ip] => (parseDigitsU ip).map (fun n => (n : Rat))
      | [ip, fp] =>
        if ip.isEmpty then
          (parseDigitsU fp).map (fun f =>
            (f : Rat) / (10 : Rat) ^ (fp.filter (fun c => !(c == '_'))).length)
        else if fp.isEmpty then
          (parseDigitsU ip).map (fun n => (n : Rat))
        else
          match parseDigitsU ip, parseDigitsU fp with
          | some i, some f =>
            some ((i : Rat) + (f : Rat) / (10 : Rat) ^ (fp.filter (fun c => !(c == '_'))).length)
          | _, _ => none
      | _ => none
    base.map (fun q => q * (10 : Rat) ^ ev)

/-- Python `float(s)` on a string, classified faithfully: optional
whitespace and sign around either `inf`/`infinity`/`nan` (case-insensitive)
or a numeric literal per `parseFloatNum`.  `none` models the raised
`ValueError`. -/
def pyFloatVal (l : List Char) : Option PyFloatVal :=
  match trimWs l with
  | [] => none
  | t =>
    let sr : Bool × List Char :=
      match t with
      | c :: r => if c == '-' then (true, r) else if c == '+' then (false, r) else (false, t)
      | [] => (false, t)
    let neg := sr.fst
    let low := sr.snd.map Char.toLower
    if low = ['i', 'n', 'f'] ∨ low = ['i', 'n', 'f', 'i', 'n', 'i', 't', 'y'] then
      some (if neg then PyFloatVal.negInf else PyFloatVal.inf)
    else if low = ['n', 'a', 'n'] then some PyFloatVal.nan
    else
      (parseFloatNum sr.snd).map (fun q => PyFloatVal.finite (if neg then -q else q))

/-- Rational restriction of `pyFloatVal`, as used by the invoice store
model, whose amounts are rational numbers: a non-finite result (a string
such as "inf" or "nan", which Python loads as a non-finite float amount)
is outside this model's number domain and is mapped to `none` here.
Theorems that quantify over arbitrary file content therefore carry the
`dataAmountsModeled` hypothesis excluding exactly those strings. -/
def pyFloatChars (l : List Char) : Option Rat :=
  match pyFloatVal l with
  | some (PyFloatVal.finite q) => some q
  | _ => none

/-- `%02d` formatting (faithful for values below 100, which covers the
months, days and other two-digit uses in the program). -/
def format02 (n : Nat) : List Char :=
  [digitChar (n / 10 % 10), digitChar (n % 10)]

/-- `%04d` formatting (faithful for values below 10000, which covers
`datetime` years 1..9999 and the invoice sequence numbers produced here). -/
def format04 (n : Nat) : List Char :=
  [digitChar (n / 1000 % 10), digitChar (n / 100 % 10),
   digitChar (n / 10 % 10), digitChar (n % 10)]

/-- `date.isoformat()`: `YYYY-MM-DD`. -/
def Date.isoformatChars (d : Date) : List Char :=
  format04 d.year.toNat ++ '-' :: (format02 d.month.toNat ++ '-' :: format02 d.day.toNat)

def Date.isoformat (d : Date) : String := String.mk d.isoformatChars

/-- `date.strftime('%Y%m%d')`. -/
def yyyymmddChars (d : Date) : List Char :=
  format04 d.year.toNat ++ format02 d.month.toNat ++ format02 d.day.toNat

/-! ### JSON values

Structural model of the parsed content of the backing file: Python's
`json.load` yields nested dicts/lists/strings/numbers/bools/None. -/

inductive Json where
  | null
  | bool (b : Bool)
  | num (q : Rat)
  | str (s : String)
  | arr (elems : List Json)
  | obj (fields : List (String × Json))

def Json.lookup : List (String × Json) → String → Option Json
  | [], _ => none
  | (k, v) :: fs, key => if k == key then some v else Json.lookup fs key

/-- Python `d.get(key, default)`: raises `AttributeError` when the value is
not a dict (lists, strings, numbers have no `.get`). -/
def pyDictGet (j : Json) (key : String) (dflt : Json) : Except PyErr Json :=
  match j with
  | .obj fs => .ok ((Json.lookup fs key).getD dflt)
  | _ => .error .attributeError

/-- Python `x[key]` with a string key: dict lookup (`KeyError` when the key
is missing); everything else raises `TypeError`. -/
def pySubscript (j : Json) (key : String) : Except PyErr Json :=
  match j with
  | .obj fs =>
    match Json.lookup fs key with
    | some v => .ok v
    | none => .error .keyError
  | _ => .error .typeError

/-- Python `for x in v`: lists iterate their elements, strings iterate
one-character strings, dicts iterate their keys; numbers, bools and None
raise `TypeError` (not iterable). -/
def pyIterate (j : Json) : Except PyErr (List Json) :=
  match j with
  | .arr xs => .ok xs
  | .str s => .ok (s.toList.map (fun c => Json.str (String.mk [c])))
  | .obj fs => .ok (fs.map (fun kv => Json.str kv.fst))
  | _ => .error .typeError

/-- Python `float(x)`: numbers pass through, bools coerce (True = 1.0),
strings are parsed through the rational projection `pyFloatChars`
(`ValueError` on parse failure); None, lists and dicts raise `TypeError`. -/
def pyFloat (j : Json) : Except PyErr Rat :=
  match j with
  | .num q => .ok q
  | .bool b => .ok (if b then 1 else 0)
  | .str s =>
    match pyFloatChars s.toList with
    | some q => .ok q
    | none => .error (.valueError "could not convert string to float")
  | _ => .error .typeError

/-- Does this invoice entry's `amount` value, when it is a string, denote a
finite float (or fail to parse)?  Strings such as "nan" or "inf" load in
Python as non-finite float amounts, which the rational-valued state model
cannot represent. -/
def amountModeled (inv : Json) : Bool :=
  match inv with
  | Json.obj fs =>
    match Json.lookup fs "amount" with
    | some (Json.str s) =>
      match pyFloatVal s.toList with
      | some (PyFloatVal.finite _) => true
      | none => true
      | some _ => false
    | _ => true
  | _ => true

/-- Scoping predicate for theorems quantifying over arbitrary file content:
every string that `load_invoices` would pass to `float(...)` (the `amount`
field of an entry of the `invoices` array) satisfies `amountModeled`. -/
def dataAmountsModeled (data : Json) : Bool :=
  match data with
  | Json.obj fs =>
    match Json.lookup fs "invoices" with
    | some (Json.arr xs) => xs.all amountModeled
    | _ => true
  | _ => true

/-- Coercion applied when a stored configuration value is used in
arithmetic (`earnings * self.fed_tax_rate`): numbers and bools multiply,
anything else raises `TypeError`. -/
def asNumber (j : Json) : Except PyErr Rat :=
  match j with
  | .num q => .ok q
  | .bool b => .ok (if b then 1 else 0)
  | _ => .error .typeError

/-! ### The invoice store (BusinessTaxCalculator) -/

/-- The `Invoice` dataclass.  `description` and `invoice_id` are stored by
Python without conversion (on load they receive raw JSON values), hence the
`Json` type; `date` is always a `datetime.date` and `amount` always passes
through `float(...)`. -/
structure Invoice where
  date : Date
  amount : Rat
  description : Json
  invoice_id : Json

/-- In-memory state of a `BusinessTaxCalculator`: the three configuration
fields (raw values, see `Invoice`) and the invoice list. -/
structure CalcState where
  fed_tax_rate : Json
  state_tax_rate : Json
  state_code : Json
  invoices : List Invoice

/-- State of a freshly constructed instance before `load_invoices` runs:
`fed_tax_rate=0.20`, `state_tax_rate=0.05`, `state_code=""`, no invoices. -/
def initialState : CalcState :=
  ⟨Json.num 0.20, Json.num 0.05, Json.str "", []⟩

/-- Content of the backing file as seen through `os.path.exists` and
`json.load`: `none` = file absent; `some (.error ())` = file present but
`json.load` raises `JSONDecodeError`; `some (.ok j)` = parses to `j`. -/
def FileContent : Type := Option (Except Unit Json)

/-- One iteration of the load loop (lines 64-74 of calculator-py.py):
subscript `'date'`, split on `'-'`, `int` each part, build the date from
parts 0..2, then `float(inv['amount'])` and the raw description and id. -/
def loadEntry (inv : Json) : Except PyErr Invoice := do
  let dateJson ← pySubscript inv "date"
  let dateStr ← (match dateJson with
    | Json.str s => Except.ok s
    | _ => Except.error PyErr.attributeError)
  let parts := splitChars '-' dateStr.toList
  let nums ← parts.mapM (fun p =>
    match pyIntChars p with
    | some n => Except.ok n
    | none => Except.error (PyErr.valueError "invalid literal for int"))
  let y ← (match nums with
    | a :: _ => Except.ok a
    | _ => Except.error PyErr.indexError)
  let m ← (match nums with
    | _ :: b :: _ => Except.ok b
    | _ => Except.error PyErr.indexError)
  let d ← (match nums with
    | _ :: _ :: c :: _ => Except.ok c
    | _ => Except.error PyErr.indexError)
  let date ← pyDate y m d
  let amountJson ← pySubscript inv "amount"
  let amount ← pyFloat amountJson
  let desc ← pySubscript inv "description"
  let iid ← pySubscript inv "invoice_id"
  pure ⟨date, amount, desc, iid⟩

/-- Body of the `try` block of `load_invoices`. -/
def loadBody (st : CalcState) (data : Json) : Except PyErr CalcState := do
  let invsJson ← pyDictGet data "invoices" (Json.arr [])
  let items ← pyIterate invsJson
  let invoices ← items.mapM loadEntry
  let fed ← pyDictGet data "fed_tax_rate" st.fed_tax_rate
  let stRate ← pyDictGet data "state_tax_rate" st.state_tax_rate
  let code ← pyDictGet data "state_code" st.state_code
  pure ⟨fed, stRate, code, invoices⟩

/-- The exception classes listed in the `except` clause of `load_invoices`
(`json.JSONDecodeError` is handled separately by the `FileContent` model). -/
def caughtByLoad : PyErr → Bool
  | .valueError _ => true
  | .keyError => true
  | .indexError => true
  | _ => false

/-- `load_invoices`: absent file leaves the state alone; a syntax error or
a caught body error resets the invoice list to empty; any other exception
propagates to the caller. -/
def load_invoices (file : FileContent) (st : CalcState) : Except PyErr CalcState :=
  match file with
  | none => .ok st
  | some (.error _) => .ok { st with invoices := [] }
  | some (.ok data) =>
    match loadBody st data with
    | .ok st2 => .ok st2
    | .error e =>
      if caughtByLoad e then .ok { st with invoices := [] } else .error e

def serializeInvoice (inv : Invoice) : Json :=
  Json.obj [
    ("date", Json.str inv.date.isoformat),
    ("amount", Json.num inv.amount),
    ("description", inv.description),
    ("invoice_id", inv.invoice_id)]

/-- `save_invoices`: the JSON document written to the backing file. -/
def save_invoices (st : CalcState) : Json :=
  Json.obj [
    ("fed_tax_rate", st.fed_tax_rate),
    ("state_tax_rate", st.state_tax_rate),
    ("state_code", st.state_code),
    ("invoices", Json.arr (st.invoices.map serializeInvoice))]

/-- Auto-generated id: `INV-<YYYYMMDD>-<count 0-padded to 4>` where the
count is the current size of the invoice list. -/
def autoInvoiceId (d : Date) (count : Nat) : String :=
  "INV-" ++ String.mk (yyyymmddChars d) ++ "-" ++ String.mk (format04 count)

/-- `add_invoice`: generates the id when absent, appends, and reports
success.  (The synchronous `save_invoices` call writes `save_invoices` of
the new state to the file; only the in-memory effect is returned here.) -/
def add_invoice (st : CalcState) (date : Date) (amount : Rat)
    (description : String) (invoice_id : Option String) :
    (Bool × String) × CalcState :=
  let iid := match invoice_id with
    | none => autoInvoiceId date st.invoices.length
    | some s => s
  let inv : Invoice := ⟨date, amount, Json.str description, Json.str iid⟩
  ((true, "Invoice " ++ iid ++ " added successfully."),
    { st with invoices := st.invoices ++ [inv] })

/-- Python `==` between a stored id (an arbitrary raw value) and the string
argument of `delete_invoice`: only equal strings compare equal. -/
def jsonEqStr (j : Json) (s : String) : Bool :=
  match j with
  | .str t => t == s
  | _ => false

/-- Removal of the first invoice whose stored id equals the argument. -/
def removeFirst (iid : String) : List Invoice → Option (List Invoice)
  | [] => none
  | inv :: rest =>
    if jsonEqStr inv.invoice_id iid then some rest
    else (removeFirst iid rest).map (fun r => inv :: r)

/-- `delete_invoice`: deletes the first match and reports, or fails with a
not-found message. -/
def delete_invoice (st : CalcState) (iid : String) :
    (Bool × String) × CalcState :=
  match removeFirst iid st.invoices with
  | some l => ((true, "Invoice " ++ iid ++ " deleted."), { st with invoices := l })
  | none => ((false, "Invoice " ++ iid ++ " not found."), st)

/-- `get_quarter_bounds`: raises `ValueError` outside 1..4, otherwise the
first day of month `3q-2` and the last day of month `3q`. -/
def get_quarter_bounds (year quarter : Int) : Except PyErr (Date × Date) :=
  if quarter < 1 ∨ quarter > 4 then
    .error (.valueError "Quarter must be between 1 and 4")
  else do
    let startMonth := (quarter - 1) * 3 + 1
    let endMonth := quarter * 3
    let startDate ← pyDate year startMonth 1
    let lastDay := daysInMonth year endMonth
    let endDate ← pyDate year endMonth lastDay
    pure (startDate, endDate)

/-- The accumulation loop shared by the earnings functions:
`total = 0.0; for inv: if start <= inv.date <= end: total += inv.amount`. -/
def earningsLoop (invoices : List Invoice) (s e : Date) : Rat :=
  invoices.foldl
    (fun total inv =>
      if dateLe s inv.date && dateLe inv.date e then total + inv.amount
      else total) 0

def get_quarterly_earnings (invoices : List Invoice) (year quarter : Int) :
    Except PyErr Rat := do
  let (s, e) ← get_quarter_bounds year quarter
  pure (earningsLoop invoices s e)

def get_yearly_earnings (invoices : List Invoice) (year : Int) :
    Except PyErr Rat := do
  let s ← pyDate year 1 1
  let e ← pyDate year 12 31
  pure (earningsLoop invoices s e)

def calculate_quarterly_federal_tax (st : CalcState) (year quarter : Int) :
    Except PyErr Rat := do
  let earnings ← get_quarterly_earnings st.invoices year quarter
  let rate ← asNumber st.fed_tax_rate
  pure (earnings * rate)

def calculate_quarterly_state_tax (st : CalcState) (year quarter : Int) :
    Except PyErr Rat := do
  let earnings ← get_quarterly_earnings st.invoices year quarter
  let rate ← asNumber st.state_tax_rate
  pure (earnings * rate)

/-- Return value of `calculate_sep_401k_limit`. -/
structure SepInfo where
  yearly_earnings : Rat
  potential_contribution : Rat
  actual_contribution : Rat
  max_contribution_limit : Rat
  contribution_percent : Rat
  deriving DecidableEq, Repr

/-- Python `min` on two numbers (returns the first argument on ties). -/
def pyMin (a b : Rat) : Rat := if b < a then b else a

/-- `calculate_sep_401k_limit`: 20% effective rate, 69000 ceiling,
percent guarded against zero earnings. -/
def calculate_sep_401k_limit (invoices : List Invoice) (year : Int) :
    Except PyErr SepInfo := do
  let yearlyEarnings ← get_yearly_earnings invoices year
  let effectiveRate : Rat := 0.20
  let maxContributionLimit : Rat := 69000
  let potential := yearlyEarnings * effectiveRate
  let actual := pyMin potential maxContributionLimit
  pure ⟨yearlyEarnings, potential, actual, maxContributionLimit,
    if yearlyEarnings = 0 then 0 else actual / yearlyEarnings * 100⟩

/-- `set_tax_rates`: validates both rates in [0,1] then assigns all three
fields (and persists); otherwise rejects leaving the state untouched.
(The success message interpolates the rates; the numeric percent formatting
of the source's f-string is not modelled in the message text.) -/
def set_tax_rates (st : CalcState) (fedRate stateRate : Rat) (code : String) :
    (Bool × String) × CalcState :=
  if 0 ≤ fedRate ∧ fedRate ≤ 1 ∧ 0 ≤ stateRate ∧ stateRate ≤ 1 then
    ((true, "Tax rates updated"),
      { st with fed_tax_rate := Json.num fedRate,
                state_tax_rate := Json.num stateRate,
                state_code := Json.str code })
  else
    ((false, "Tax rates must be between 0.0 and 1.0"), st)

/-- One quarter's row of `generate_quarterly_report`. -/
structure QuarterFigures where
  earnings : Rat
  fed_tax : Rat
  state_tax : Rat
  total_tax : Rat
  invoice_count : Nat
  deriving DecidableEq, Repr

structure Report where
  year : Int
  quarters : List (Int × QuarterFigures)
  sep_401k : Option SepInfo
  deriving DecidableEq, Repr

/-- `generate_quarterly_report`: one requested quarter or all four; the
full-year report additionally embeds the SEP calculation. -/
def generate_quarterly_report (st : CalcState) (year : Int)
    (quarter : Option Int) : Except PyErr Report := do
  let qs := match quarter with
    | some q => [q]
    | none => [1, 2, 3, 4]
  let figures ← qs.mapM (fun q => do
    let earnings ← get_quarterly_earnings st.invoices year q
    let fedTax ← calculate_quarterly_federal_tax st year q
    let stateTax ← calculate_quarterly_state_tax st year q
    let (s, e) ← get_quarter_bounds year q
    let sel := st.invoices.filter (fun inv => dateLe s inv.date && dateLe inv.date e)
    pure (q, QuarterFigures.mk earnings fedTax stateTax (fedTax + stateTax) sel.length))
  let sep ← match quarter with
    | none => Except.map some (calculate_sep_401k_limit st.invoices year)
    | some _ => pure none
  pure ⟨year, figures, sep⟩

/-! ### The PDF heuristic extractor (PdfInvoiceExtractor)

The pdfplumber collaborator is modelled by `Page`/`PdfDoc`: each access to
a page's text or tables either yields a value or raises.  The `re` regex
module and `datetime.strptime` (used with genuinely regular patterns on
arbitrary strings) are external libraries and are modelled as an abstract
engine `ReEngine` the extractor is parameterised over; the date and amount
parsing that the repository implements itself (split on `/` or `-`,
`int`/`float` conversion, the cleanup of amount strings) is modelled
concretely. -/

/-- A pdfplumber table cell: a string or None. -/
def Cell : Type := Option String

def TableRow : Type := List Cell

def PdfTable : Type := List TableRow

/-- A pdfplumber page: `extract_text()` and `extract_tables()` may each
raise. -/
structure Page where
  text : Except PyErr String
  tables : Except PyErr (List PdfTable)

/-- A document: either `pdfplumber.open` itself raises, or it yields a page
list. -/
inductive PdfDoc where
  | openFail (e : PyErr)
  | pages (ps : List Page)

/-- An extracted invoice candidate (the dict built by the extractor). -/
structure Candidate where
  date : Date
  amount : Rat
  description : String
  currency : String
  doc_number : String
  deriving DecidableEq, Repr

/-- The external `re` / `strptime` machinery: `findallA`/`findallB` are
`re.findall` with the two text-fallback patterns (three capture groups
each), `matchFmt pat s` is `re.match(pat, s)`, and `strptime fmt s` is
`datetime.datetime.strptime(s, fmt).date()` with `none` for the raised
`ValueError`. -/
structure ReEngine where
  findallA : String → List (String × String × String)
  findallB : String → List (String × String × String)
  matchFmt : String → String → Bool
  strptime : String → String → Option Date

def pyLower (s : String) : String := String.mk (s.toList.map Char.toLower)

def pyStrip (s : String) : String := String.mk (trimWs s.toList)

/-- `str(h).strip() if h else ""`: None and the empty string are falsy. -/
def cellStr (c : Cell) : String :=
  match c with
  | none => ""
  | some s => if s == "" then "" else pyStrip s

/-- Cell truthiness, as used by `any(row)`. -/
def cellTruthy (c : Cell) : Bool :=
  match c with
  | some s => s != ""
  | none => false

/-- Does `needle` occur at the head of `hay`? -/
def matchesAt : List Char → List Char → Bool
  | [], _ => true
  | _ :: _, [] => false
  | c :: cs, d :: ds => c == d && matchesAt cs ds

/-- Python `needle in hay` for strings (substring search). -/
def findSub (needle : List Char) : List Char → Bool
  | [] => needle.isEmpty
  | c :: cs => matchesAt needle (c :: cs) || findSub needle cs

def containsSub (needle hay : String) : Bool := findSub needle.toList hay.toList

/-- `re.sub(r'[^\d.]', '', s)`: keep only digits and dots. -/
def cleanAmountChars (s : String) : List Char :=
  s.toList.filter (fun c => (charDigitVal c).isSome || c == '.')

/-- Column indices found in a qualifying table of `extract_from_pdf`. -/
structure ColIdx where
  typeIdx : Nat
  numIdx : Nat
  dateIdx : Nat
  amountIdx : Nat
  currencyIdx : Nat

/-- `next(i for i, h in enumerate(headers) if needle in h.lower())`:
first matching index. -/
def findHeaderIdx (headers : List String) (needle : String) : Option Nat :=
  headers.findIdx? (fun h => containsSub needle (pyLower h))

/-- Extraction state threaded through `extract_from_pdf`: the growing
candidate list and the value of the function-level local variable `date`
(`none` until its first assignment; reading it then raises `NameError`). -/
structure ExtractSt where
  invoices : List Candidate
  dateVar : Option Date

/-- Outcome of a guarded parsing block inside a row loop: the row is
skipped (`continue`, from the explicit `else` or a caught
`ValueError`/`IndexError`), or control falls through with a value, or an
exception outside the caught tuple propagates. -/
inductive RowOutcome (α : Type) where
  | skip
  | val (a : α)
  | raise (e : PyErr)

/-- The date-parsing block of the table pass (lines 79-95 of
pdf-extractor-py.py).  The `except (ValueError, IndexError)` handler turns
a `ValueError` from `int` or `datetime.date` into a skip, but an
`OverflowError` from an out-of-C-int-range date component escapes it
(`raise`); and when the split does not yield exactly 3 parts no branch
assigns or raises, so the stale previous value of the local variable
`date` falls through (`val cur`). -/
def tableDateStep (cur : Option Date) (ds : String) : RowOutcome (Option Date) :=
  let l := ds.toList
  if l.contains '/' then
    let parts := splitChars '/' l
    if parts.length = 3 then
      match pyIntChars (parts.getD 2 []), pyIntChars (parts.getD 1 []),
            pyIntChars (parts.getD 0 []) with
      | some y, some m, some d =>
        match pyDate y m d with
        | .ok dt => .val (some dt)
        | .error (.valueError _) => .skip
        | .error e => .raise e
      | _, _, _ => .skip
    else .val cur
  else if l.contains '-' then
    let parts := splitChars '-' l
    if parts.length = 3 then
      match pyIntChars (parts.getD 0 []), pyIntChars (parts.getD 1 []),
            pyIntChars (parts.getD 2 []) with
      | some y, some m, some d =>
        match pyDate y m d with
        | .ok dt => .val (some dt)
        | .error (.valueError _) => .skip
        | .error e => .raise e
      | _, _, _ => .skip
    else .val cur
  else .skip

/-- One data row of a qualifying table in `extract_from_pdf`. -/
def processRow (ci : ColIdx) (est : ExtractSt) (row : TableRow) :
    Except PyErr ExtractSt :=
  if row.isEmpty || !(row.any cellTruthy) then .ok est
  else if row.length ≤
      max ci.typeIdx (max ci.numIdx (max ci.dateIdx (max ci.amountIdx ci.currencyIdx))) then
    .ok est
  else
    let docType := cellStr (row.getD ci.typeIdx none)
    let docNum := cellStr (row.getD ci.numIdx none)
    let dateStr := cellStr (row.getD ci.dateIdx none)
    let amountStr := cellStr (row.getD ci.amountIdx none)
    let currency := cellStr (row.getD ci.currencyIdx none)
    if docType == "" || docNum == "" || dateStr == "" || amountStr == "" then .ok est
    else
      match tableDateStep est.dateVar dateStr with
      | .skip => .ok est
      | .raise e => .error e
      | .val newVar =>
        match parseFloatDigits (cleanAmountChars amountStr) with
        | none => .ok { est with dateVar := newVar }
        | some amount =>
          match newVar with
          | none => .error PyErr.nameError
          | some dt =>
            .ok ⟨est.invoices ++
              [⟨dt, amount, docType ++ ": " ++ docNum, currency, docNum⟩], newVar⟩

/-- One table of `extract_from_pdf`: row 0 is the header row (`table[0]`
raises `IndexError` on an empty table); the table qualifies only when the
headers mention invoice, date and amount; the five column indices must all
be found (first match), otherwise the table is skipped. -/
def processTable (est : ExtractSt) (table : PdfTable) : Except PyErr ExtractSt :=
  match table with
  | [] => .error PyErr.indexError
  | headerRow :: rows =>
    let headers := headerRow.map cellStr
    if (headers.any (fun h => containsSub "invoice" (pyLower h))) &&
       (headers.any (fun h => containsSub "date" (pyLower h))) &&
       (headers.any (fun h => containsSub "amount" (pyLower h))) then
      match findHeaderIdx headers "type", findHeaderIdx headers "number",
            findHeaderIdx headers "date", findHeaderIdx headers "amount",
            findHeaderIdx headers "currency" with
      | some ti, some ni, some di, some ai, some ci =>
        rows.foldlM (processRow ⟨ti, ni, di, ai, ci⟩) est
      | _, _, _, _, _ => .ok est
    else .ok est

/-- The date parsing of the text-fallback pass (lines 133-141): here a
short split raises `IndexError`, which the handler turns into a skip, so
every surviving match has a freshly assigned date; an `OverflowError`
from an out-of-C-int-range component still escapes the handler. -/
def textDateStep (ds : String) : RowOutcome Date :=
  let l := ds.toList
  if l.contains '/' then
    match splitChars '/' l with
    | p0 :: p1 :: p2 :: _ =>
      match pyIntChars p2, pyIntChars p1, pyIntChars p0 with
      | some y, some m, some d =>
        match pyDate y m d with
        | .ok dt => .val dt
        | .error (.valueError _) => .skip
        | .error e => .raise e
      | _, _, _ => .skip
    | _ => .skip
  else
    match splitChars '-' l with
    | p0 :: p1 :: p2 :: _ =>
      match pyIntChars p0, pyIntChars p1, pyIntChars p2 with
      | some y, some m, some d =>
        match pyDate y m d with
        | .ok dt => .val dt
        | .error (.valueError _) => .skip
        | .error e => .raise e
      | _, _, _ => .skip
    | _ => .skip

/-- One regex match of the text-fallback pass: capture groups are
(number, date, amount); caught failures skip the match, successes also
update the function-level `date` variable, and an uncaught exception
propagates. -/
def processTextMatch (est : ExtractSt) (m : String × String × String) :
    Except PyErr ExtractSt :=
  let docNum := m.1
  let dateStr := m.2.1
  let amountStr := m.2.2
  match textDateStep dateStr with
  | .skip => .ok est
  | .raise e => .error e
  | .val dt =>
    match parseFloatDigits (cleanAmountChars amountStr) with
    | none => .ok { est with dateVar := some dt }
    | some amount =>
      .ok ⟨est.invoices ++ [⟨dt, amount, "Invoice: " ++ docNum, "USD", docNum⟩],
        some dt⟩

/-- Both fallback patterns applied to the page text. -/
def textFallback (re : ReEngine) (text : String) (est : ExtractSt) :
    Except PyErr ExtractSt := do
  let est1 ← (re.findallA text).foldlM processTextMatch est
  (re.findallB text).foldlM processTextMatch est1

/-- One page of `extract_from_pdf`: text then tables are extracted, every
table is processed, and the text fallback runs only when no candidate has
been found in the whole document so far. -/
def processPdfPage (re : ReEngine) (est : ExtractSt) (page : Page) :
    Except PyErr ExtractSt := do
  let text ← page.text
  let tables ← page.tables
  let est2 ← tables.foldlM processTable est
  if est2.invoices.isEmpty then textFallback re text est2
  else pure est2

/-- Body of the outer `try` of `extract_from_pdf`. -/
def extractFromPdfBody (re : ReEngine) (ps : List Page) :
    Except PyErr (List Candidate) := do
  let est ← ps.foldlM (processPdfPage re) ⟨[], none⟩
  pure est.invoices

/-- `extract_from_pdf`: any exception from the body (or from opening the
document) is caught and yields an empty list. -/
def extract_from_pdf (re : ReEngine) (doc : PdfDoc) : List Candidate :=
  match doc with
  | .openFail _ => []
  | .pages ps =>
    match extractFromPdfBody re ps with
    | .ok l => l
    | .error _ => []

/-! #### Remittance-advice variant -/

/-- Column indices located in a remittance table (the `elif` scan keeps the
last matching index for each role). -/
structure RemIdx where
  typeIdx : Option Nat
  numIdx : Option Nat
  dateIdx : Option Nat
  amountIdx : Option Nat
  currencyIdx : Option Nat

/-- The header scan of `extract_from_remittance_advice` (an if/elif chain
over the enumerated, already lower-cased headers; later matches
overwrite). -/
def remScan (headers : List String) : RemIdx :=
  (headers.enum).foldl
    (fun acc p =>
      let i := p.fst
      let h := p.snd
      if containsSub "type" h && containsSub "document" h then
        { acc with typeIdx := some i }
      else if containsSub "number" h &&
          (containsSub "document" h || containsSub "invoice" h) then
        { acc with numIdx := some i }
      else if containsSub "date" h then { acc with dateIdx := some i }
      else if containsSub "amount" h && containsSub "payment" h then
        { acc with amountIdx := some i }
      else if containsSub "currency" h then { acc with currencyIdx := some i }
      else acc)
    ⟨none, none, none, none, none⟩

/-- The five (strptime format, guard pattern) pairs tried in order. -/
def remDateFormats : List (String × String) :=
  [("%d/%m/%Y", "\\d\x7b1,2\x7d/\\d\x7b1,2\x7d/\\d\x7b4\x7d"),
   ("%m/%d/%Y", "\\d\x7b1,2\x7d/\\d\x7b1,2\x7d/\\d\x7b4\x7d"),
   ("%Y-%m-%d", "\\d\x7b4\x7d-\\d\x7b1,2\x7d-\\d\x7b1,2\x7d"),
   ("%d-%m-%Y", "\\d\x7b1,2\x7d-\\d\x7b1,2\x7d-\\d\x7b4\x7d"),
   ("%d.%m.%Y", "\\d\x7b1,2\x7d\\.\\d\x7b1,2\x7d\\.\\d\x7b4\x7d")]

def remTryDateGo (re : ReEngine) (ds : String) :
    List (String × String) → Option Date
  | [] => none
  | (fmt, pat) :: rest =>
    if re.matchFmt pat ds then
      match re.strptime fmt ds with
      | some d => some d
      | none => remTryDateGo re ds rest
    else remTryDateGo re ds rest

def remTryDate (re : ReEngine) (ds : String) : Option Date :=
  remTryDateGo re ds remDateFormats

/-- Currency sniffing on the amount string (the elif chain after the
`currency = "USD"` default). -/
def sniffCurrency (amountStr : String) : String :=
  if containsSub "USD" amountStr || containsSub "$" amountStr then "USD"
  else if containsSub "EUR" amountStr || containsSub "€" amountStr then "EUR"
  else if containsSub "GBP" amountStr || containsSub "£" amountStr then "GBP"
  else "USD"

/-- One data row of a remittance table.  The per-row `try` catches
`ValueError` and `IndexError`, so every failure (including an out-of-range
currency column index) just skips the row. -/
def remProcessRow (re : ReEngine) (ti ni di ai : Nat) (ci : Option Nat)
    (cands : List Candidate) (row : TableRow) : List Candidate :=
  if row.isEmpty || row.length ≤ max ti (max ni (max di ai)) then cands
  else
    let docType := cellStr (row.getD ti none)
    let docNum := cellStr (row.getD ni none)
    let dateStr := cellStr (row.getD di none)
    let amountStr := cellStr (row.getD ai none)
    let currencyRes : Except Unit String :=
      match ci with
      | some cIdx =>
        if row.length ≤ cIdx then .error ()
        else if cellTruthy (row.getD cIdx none) then
          .ok (pyStrip ((row.getD cIdx none).getD ""))
        else .ok (sniffCurrency amountStr)
      | none => .ok (sniffCurrency amountStr)
    match currencyRes with
    | .error _ => cands
    | .ok currency =>
      if docNum == "" || dateStr == "" || amountStr == "" then cands
      else
        match remTryDate re dateStr with
        | none => cands
        | some dt =>
          match parseFloatDigits (cleanAmountChars amountStr) with
          | none => cands
          | some amount =>
            cands ++ [⟨dt, amount,
              (if docType != "" then docType ++ ": " ++ docNum
               else "Invoice: " ++ docNum), currency, docNum⟩]

/-- One table of `extract_from_remittance_advice`: needs at least a header
and one data row, compound header phrases, and the four mandatory column
roles. -/
def remProcessTable (re : ReEngine) (cands : List Candidate)
    (table : PdfTable) : List Candidate :=
  if table.length < 2 then cands
  else
    match table with
    | [] => cands
    | headerRow :: rows =>
      let headers := headerRow.map (fun c => pyLower (cellStr c))
      let joined := String.intercalate " " headers
      if (containsSub "document" joined || containsSub "invoice" joined) &&
         containsSub "date" joined && containsSub "amount" joined then
        let ri := remScan headers
        match ri.typeIdx, ri.numIdx, ri.dateIdx, ri.amountIdx with
        | some ti, some ni, some di, some ai =>
          rows.foldl (remProcessRow re ti ni di ai ri.currencyIdx) cands
        | _, _, _, _ => cands
      else cands

/-- One page of `extract_from_remittance_advice`: gated on the page text
containing the phrase "remittance advice". -/
def processRemPage (re : ReEngine) (cands : List Candidate) (page : Page) :
    Except PyErr (List Candidate) := do
  let text ← page.text
  let tables ← page.tables
  if containsSub "remittance advice" (pyLower text) then
    pure (tables.foldl (remProcessTable re) cands)
  else pure cands

/-- Body of the outer `try` of `extract_from_remittance_advice`. -/
def extractRemBody (re : ReEngine) (ps : List Page) :
    Except PyErr (List Candidate) :=
  ps.foldlM (processRemPage re) []

/-- `extract_from_remittance_advice`: any exception from the body is caught
and yields an empty list. -/
def extract_from_remittance_advice (re : ReEngine) (doc : PdfDoc) :
    List Candidate :=
  match doc with
  | .openFail _ => []
  | .pages ps =>
    match extractRemBody re ps with
    | .ok l => l
    | .error _ => []

/-- A regex engine with no matches (sufficient for runs in which the text
fallback is never consulted). -/
def trivEngine : ReEngine :=
  ⟨fun _ => [], fun _ => [], fun _ _ => false, fun _ _ => none⟩

/-! ### Concrete fixtures used by the closed theorems and witnesses -/

/-- A qualifying invoice table: a valid row, a row with an out-of-range
date, and a row whose date string splits into two parts. -/
def c8HeaderRow : TableRow :=
  [some "Invoice Type", some "Invoice Number", some "Invoice Date",
   some "Amount", some "Currency"]

def c8Row1 : TableRow :=
  [some "INV", some "001", some "15/03/2024", some "100", some "USD"]

def c8Row2 : TableRow :=
  [some "INV", some "002", some "2024-13-40", some "200", some "USD"]

def c8Row3 : TableRow :=
  [some "INV", some "003", some "1/2", some "300", some "USD"]

def c8Doc : PdfDoc :=
  .pages [⟨.ok "", .ok [[c8HeaderRow, c8Row1, c8Row2, c8Row3]]⟩]

/-- A page whose text extraction raises. -/
def c9Page : Page := ⟨.error .typeError, .error .typeError⟩

def c10Date : Date := ⟨2024, 3, 15⟩

/-- Add two invoices on the same date, delete the first, add a third. -/
def c10State1 : CalcState := (add_invoice initialState c10Date 100 "first" none).2

def c10State2 : CalcState := (add_invoice c10State1 c10Date 200 "second" none).2

def c10State3 : CalcState := (delete_invoice c10State2 "INV-20240315-0000").2

def c10Final : CalcState := (add_invoice c10State3 c10Date 300 "third" none).2

/-- A state with two invoices and non-default configuration (one invoice id
is a raw number, as a loaded file can produce). -/
def c3Witness : CalcState :=
  ⟨Json.num 0.25, Json.num 0.06, Json.str "NY",
   [⟨⟨2024, 2, 29⟩, 150.75, Json.str "consulting", Json.str "INV-X"⟩,
    ⟨⟨2023, 12, 31⟩, 200, Json.null, Json.num 7⟩]⟩

/-- File content whose single invoice entry lacks a date field: the load
loop hits a `KeyError`, which is caught. -/
def c2CaughtDoc : Json := Json.obj [("invoices", Json.arr [Json.obj []])]

/-- File content whose date has a component too large for a C int:
`int("99999999999")` succeeds, then `datetime.date(...)` raises an
`OverflowError` that the except tuple does not catch. -/
def c2OverflowDoc : Json :=
  Json.obj [("invoices", Json.arr
    [Json.obj [("date", Json.str "99999999999-1-1"), ("amount", Json.num 1),
               ("description", Json.str "x"), ("invoice_id", Json.str "y")]])]

/-! ## Helper lemmas -/

theorem ok_bind {α β : Type} (a : α) (f : α → Except PyErr β) :
    (Except.ok a >>= f) = f a := rfl

theorem error_bind {α β : Type} (e : PyErr) (f : α → Except PyErr β) :
    ((Except.error e : Except PyErr α) >>= f) = Except.error e := rfl

theorem pure_bind_ok {α β : Type} (a : α) (f : α → Except PyErr β) :
    ((pure a : Except PyErr α) >>= f) = f a := rfl

theorem bind_error_cases {α β : Type} {x : Except PyErr α}
    {f : α → Except PyErr β} {e : PyErr} (h : (x >>= f) = Except.error e) :
    x = Except.error e ∨ ∃ a, x = Except.ok a ∧ f a = Except.error e := by
  cases x with
  | error e2 =>
    left
    rw [error_bind] at h
    cases h
    rfl
  | ok a =>
    right
    exact ⟨a, rfl, by rwa [ok_bind] at h⟩

theorem bind_ne_err {α β : Type} {x : Except PyErr α} {f : α → Except PyErr β}
    {e : PyErr} (hx : x ≠ Except.error e) (hf : ∀ a, f a ≠ Except.error e) :
    (x >>= f) ≠ Except.error e := by
  intro h
  rcases bind_error_cases h with h1 | ⟨a, _, h2⟩
  · exact hx h1
  · exact hf a h2

theorem digitChar_facts : ∀ k, k ≤ 9 →
    charDigitVal (digitChar k) = some k ∧ isWs (digitChar k) = false ∧
    ((digitChar k == '-') = false) ∧ ((digitChar k == '+') = false) ∧
    ((digitChar k == '_') = false) := by
  decide

theorem mem_format04 (n : Nat) (c : Char) (h : c ∈ format04 n) :
    ∃ k, k ≤ 9 ∧ c = digitChar k := by
  simp only [format04, List.mem_cons, List.not_mem_nil, or_false] at h
  rcases h with h | h | h | h <;> exact ⟨_, Nat.le_of_lt_succ (Nat.mod_lt _ (by omega)), h⟩

theorem mem_format02 (n : Nat) (c : Char) (h : c ∈ format02 n) :
    ∃ k, k ≤ 9 ∧ c = digitChar k := by
  simp only [format02, List.mem_cons, List.not_mem_nil, or_false] at h
  rcases h with h | h <;> exact ⟨_, Nat.le_of_lt_succ (Nat.mod_lt _ (by omega)), h⟩

theorem format04_not_ws (n : Nat) : ∀ c ∈ format04 n, isWs c = false := by
  intro c hc
  obtain ⟨k, hk, rfl⟩ := mem_format04 n c hc
  exact (digitChar_facts k hk).2.1

theorem format02_not_ws (n : Nat) : ∀ c ∈ format02 n, isWs c = false := by
  intro c hc
  obtain ⟨k, hk, rfl⟩ := mem_format02 n c hc
  exact (digitChar_facts k hk).2.1

theorem format04_not_dash (n : Nat) : ∀ c ∈ format04 n, (c == '-') = false := by
  intro c hc
  obtain ⟨k, hk, rfl⟩ := mem_format04 n c hc
  exact (digitChar_facts k hk).2.2.1

theorem format02_not_dash (n : Nat) : ∀ c ∈ format02 n, (c == '-') = false := by
  intro c hc
  obtain ⟨k, hk, rfl⟩ := mem_format02 n c hc
  exact (digitChar_facts k hk).2.2.1

theorem dropWhile_of_head_false {p : Char → Bool} :
    ∀ (l : List Char), (∀ c ∈ l, p c = false) → l.dropWhile p = l := by
  intro l h
  cases l with
  | nil => rfl
  | cons c cs => simp [List.dropWhile, h c (by simp)]

theorem trimWs_of_no_ws (l : List Char) (h : ∀ c ∈ l, isWs c = false) :
    trimWs l = l := by
  unfold trimWs
  rw [dropWhile_of_head_false l h,
    dropWhile_of_head_false l.reverse (by intro c hc; exact h c (List.mem_reverse.mp hc)),
    List.reverse_reverse]

theorem splitChars_ne_nil (sep : Char) (l : List Char) :
    splitChars sep l ≠ [] := by
  cases l with
  | nil => simp [splitChars]
  | cons c cs =>
    simp only [splitChars]
    cases splitChars sep cs with
    | nil => simp
    | cons h t =>
      by_cases hc : (c == sep) = true <;> simp [hc]

theorem splitChars_of_no_sep (sep : Char) :
    ∀ (l : List Char), (∀ c ∈ l, (c == sep) = false) → splitChars sep l = [l] := by
  intro l
  induction l with
  | nil => intro _; rfl
  | cons c cs ih =>
    intro h
    have hcs := ih (fun x hx => h x (by simp [hx]))
    simp only [splitChars, hcs, h c (by simp)]
    simp

theorem splitChars_append (sep : Char) :
    ∀ (l1 l2 : List Char), (∀ c ∈ l1, (c == sep) = false) →
      splitChars sep (l1 ++ sep :: l2) = l1 :: splitChars sep l2 := by
  intro l1
  induction l1 with
  | nil =>
    intro l2 _
    cases hs : splitChars sep l2 with
    | nil => exact absurd hs (splitChars_ne_nil sep l2)
    | cons hh tt => simp [splitChars, hs]
  | cons c cs ih =>
    intro l2 h
    have hcs := ih l2 (fun x hx => h x (by simp [hx]))
    simp [splitChars, hcs, h c (by simp)]

theorem charDigitVal_digit_mod (n : Nat) :
    charDigitVal (digitChar (n % 10)) = some (n % 10) :=
  (digitChar_facts (n % 10) (by omega)).1

theorem digitsUGo_of_digits :
    ∀ (l : List Char),
      (∀ c ∈ l, (charDigitVal c).isSome ∧ (c == '_') = false) →
      digitsUGo false l = true := by
  intro l
  induction l with
  | nil => intro _; rfl
  | cons c cs ih =>
    intro h
    have hc := h c (by simp)
    simp [digitsUGo, hc.1, hc.2, ih (fun x hx => h x (by simp [hx]))]

theorem filter_no_underscore (l : List Char)
    (h : ∀ c ∈ l, (c == '_') = false) :
    l.filter (fun c => !(c == '_')) = l := by
  induction l with
  | nil => rfl
  | cons c cs ih =>
    simp [List.filter, h c (by simp), ih (fun x hx => h x (by simp [hx]))]

theorem parseDigitsU_of_digits (l : List Char) (hne : l ≠ [])
    (h : ∀ c ∈ l, (charDigitVal c).isSome ∧ (c == '_') = false) :
    parseDigitsU l = parseDigits l := by
  unfold parseDigitsU
  have hv : digitsUValid l = true := by
    match l, hne with
    | c :: cs, _ =>
      simp [digitsUValid, (h c (by simp)).1, digitsUGo_of_digits _ h]
  rw [if_pos hv, filter_no_underscore l (fun c hc => (h c hc).2)]

theorem format04_digit_chars (n : Nat) :
    ∀ c ∈ format04 n, (charDigitVal c).isSome ∧ (c == '_') = false := by
  intro c hc
  obtain ⟨k, hk, rfl⟩ := mem_format04 n c hc
  exact ⟨by rw [(digitChar_facts k hk).1]; rfl, (digitChar_facts k hk).2.2.2.2⟩

theorem format02_digit_chars (n : Nat) :
    ∀ c ∈ format02 n, (charDigitVal c).isSome ∧ (c == '_') = false := by
  intro c hc
  obtain ⟨k, hk, rfl⟩ := mem_format02 n c hc
  exact ⟨by rw [(digitChar_facts k hk).1]; rfl, (digitChar_facts k hk).2.2.2.2⟩

theorem parseDigitsU_format04 (n : Nat) :
    parseDigitsU (format04 n) = parseDigits (format04 n) :=
  parseDigitsU_of_digits _ (by simp [format04]) (format04_digit_chars n)

theorem parseDigitsU_format02 (n : Nat) :
    parseDigitsU (format02 n) = parseDigits (format02 n) :=
  parseDigitsU_of_digits _ (by simp [format02]) (format02_digit_chars n)

theorem parseDigits_format04 (n : Nat) :
    parseDigits (format04 n) = some (n % 10000) := by
  simp only [format04, parseDigits, parseDigitsGo, charDigitVal_digit_mod]
  congr 1
  omega

theorem parseDigits_format02 (n : Nat) :
    parseDigits (format02 n) = some (n % 100) := by
  simp only [format02, parseDigits, parseDigitsGo, charDigitVal_digit_mod]
  congr 1
  omega

theorem pyIntChars_format04 (n : Nat) (h : n ≤ 9999) :
    pyIntChars (format04 n) = some (n : Int) := by
  unfold pyIntChars
  rw [trimWs_of_no_ws _ (format04_not_ws n)]
  simp only [format04]
  rw [show digitChar (n / 1000 % 10) :: digitChar (n / 100 % 10) ::
        digitChar (n / 10 % 10) :: [digitChar (n % 10)] = format04 n from rfl]
  simp only [(digitChar_facts (n / 1000 % 10) (by omega)).2.2.1,
    (digitChar_facts (n / 1000 % 10) (by omega)).2.2.2.1]
  simp [parseDigitsU_format04, parseDigits_format04,
    Nat.mod_eq_of_lt (by omega : n < 10000)]

theorem pyIntChars_format02 (n : Nat) (h : n ≤ 99) :
    pyIntChars (format02 n) = some (n : Int) := by
  unfold pyIntChars
  rw [trimWs_of_no_ws _ (format02_not_ws n)]
  simp only [format02]
  rw [show digitChar (n / 10 % 10) :: [digitChar (n % 10)] = format02 n from rfl]
  simp only [(digitChar_facts (n / 10 % 10) (by omega)).2.2.1,
    (digitChar_facts (n / 10 % 10) (by omega)).2.2.2.1]
  simp [parseDigitsU_format02, parseDigits_format02,
    Nat.mod_eq_of_lt (by omega : n < 100)]

theorem daysInMonth_le (y m : Int) : daysInMonth y m ≤ 31 := by
  unfold daysInMonth
  split
  · split <;> norm_num
  · split <;> norm_num

theorem pyDate_ok (y m d : Int) (h1 : 1 ≤ y) (h2 : y ≤ 9999) (h3 : 1 ≤ m)
    (h4 : m ≤ 12) (h5 : 1 ≤ d) (h6 : d ≤ daysInMonth y m) :
    pyDate y m d = Except.ok ⟨y, m, d⟩ := by
  have hd31 := daysInMonth_le y m
  have hr : (fitsCInt y && fitsCInt m && fitsCInt d) = true := by
    simp only [fitsCInt, Bool.and_eq_true, decide_eq_true_eq]
    omega
  unfold pyDate
  rw [hr]
  rw [if_pos rfl, if_pos]
  unfold pyDateValid
  simp [h1, h2, h3, h4, h5, h6]

theorem splitChars_isoformat (dt : Date) :
    splitChars '-' dt.isoformatChars =
      [format04 dt.year.toNat, format02 dt.month.toNat, format02 dt.day.toNat] := by
  unfold Date.isoformatChars
  rw [splitChars_append _ _ _ (format04_not_dash _),
    splitChars_append _ _ _ (format02_not_dash _),
    splitChars_of_no_sep _ _ (format02_not_dash _)]

theorem pyMin_eq_min (a b : Rat) : pyMin a b = min a b := by
  unfold pyMin
  rw [min_def]
  rcases lt_or_le b a with h | h
  · rw [if_pos h, if_neg (not_le.mpr h)]
  · rw [if_neg (not_lt.mpr h), if_pos h]

theorem foldl_cond_sum (p : Invoice → Bool) :
    ∀ (invs : List Invoice) (init : Rat),
      invs.foldl (fun t i => if p i then t + i.amount else t) init
        = init + ((invs.filter p).map Invoice.amount).sum := by
  intro invs
  induction invs with
  | nil => intro init; simp
  | cons a as ih =>
    intro init
    by_cases hp : p a <;> simp [List.foldl_cons, List.filter_cons, hp, ih, add_assoc]

theorem earningsLoop_eq_sum (invs : List Invoice) (s e : Date) :
    earningsLoop invs s e =
      ((invs.filter (fun i => dateLe s i.date && dateLe i.date e)).map
        Invoice.amount).sum := by
  unfold earningsLoop
  simpa using foldl_cond_sum (fun i => dateLe s i.date && dateLe i.date e) invs 0

theorem loadEntry_serialize (inv : Invoice) (h : inv.date.valid = true) :
    loadEntry (serializeInvoice inv) = Except.ok inv := by
  obtain ⟨⟨Y, M, D⟩, A, DS, ID⟩ := inv
  simp only [Date.valid, pyDateValid, Bool.and_eq_true, decide_eq_true_eq] at h
  obtain ⟨⟨⟨⟨⟨h1, h2⟩, h3⟩, h4⟩, h5⟩, h6⟩ := h
  have hDle : D ≤ 31 := le_trans h6 (daysInMonth_le Y M)
  have hY : Y.toNat ≤ 9999 := by omega
  have hM : M.toNat ≤ 99 := by omega
  have hD : D.toNat ≤ 99 := by omega
  have hYc : ((Y.toNat : Nat) : Int) = Y := Int.toNat_of_nonneg (by omega)
  have hMc : ((M.toNat : Nat) : Int) = M := Int.toNat_of_nonneg (by omega)
  have hDc : ((D.toNat : Nat) : Int) = D := Int.toNat_of_nonneg (by omega)
  have hsub1 : pySubscript (serializeInvoice ⟨⟨Y, M, D⟩, A, DS, ID⟩) "date"
      = Except.ok (Json.str (Date.isoformat ⟨Y, M, D⟩)) := rfl
  have hsub2 : pySubscript (serializeInvoice ⟨⟨Y, M, D⟩, A, DS, ID⟩) "amount"
      = Except.ok (Json.num A) := rfl
  have hsub3 : pySubscript (serializeInvoice ⟨⟨Y, M, D⟩, A, DS, ID⟩) "description"
      = Except.ok DS := rfl
  have hsub4 : pySubscript (serializeInvoice ⟨⟨Y, M, D⟩, A, DS, ID⟩) "invoice_id"
      = Except.ok ID := rfl
  have htl : (Date.isoformat ⟨Y, M, D⟩).toList = Date.isoformatChars ⟨Y, M, D⟩ := rfl
  have hdate : pyDate ((Y.toNat : Nat) : Int) ((M.toNat : Nat) : Int) ((D.toNat : Nat) : Int)
      = Except.ok ⟨Y, M, D⟩ := by
    rw [hYc, hMc, hDc]
    exact pyDate_ok Y M D h1 h2 h3 h4 h5 h6
  simp only [loadEntry, hsub1, hsub2, hsub3, hsub4, ok_bind, pure_bind_ok, htl,
    splitChars_isoformat, List.mapM_cons, List.mapM_nil,
    pyIntChars_format04 _ hY, pyIntChars_format02 _ hM, pyIntChars_format02 _ hD,
    hdate, pyFloat]
  rfl

theorem mapM_loadEntry_serialize (invs : List Invoice)
    (h : ∀ inv ∈ invs, inv.date.valid = true) :
    (invs.map serializeInvoice).mapM loadEntry = Except.ok invs := by
  induction invs with
  | nil => rfl
  | cons a as ih =>
    rw [List.map_cons, List.mapM_cons, loadEntry_serialize a (h a (by simp)), ok_bind,
      ih (fun i hi => h i (by simp [hi]))]
    rfl

theorem loadBody_save (st : CalcState)
    (h : ∀ inv ∈ st.invoices, inv.date.valid = true) :
    loadBody initialState (save_invoices st) = Except.ok st := by
  obtain ⟨F, S, C, invs⟩ := st
  have hget : pyDictGet (save_invoices ⟨F, S, C, invs⟩) "invoices" (Json.arr [])
      = Except.ok (Json.arr (invs.map serializeInvoice)) := rfl
  have hfed : pyDictGet (save_invoices ⟨F, S, C, invs⟩) "fed_tax_rate"
      initialState.fed_tax_rate = Except.ok F := rfl
  have hst : pyDictGet (save_invoices ⟨F, S, C, invs⟩) "state_tax_rate"
      initialState.state_tax_rate = Except.ok S := rfl
  have hcode : pyDictGet (save_invoices ⟨F, S, C, invs⟩) "state_code"
      initialState.state_code = Except.ok C := rfl
  simp only [loadBody, hget, hfed, hst, hcode, ok_bind, pyIterate,
    mapM_loadEntry_serialize invs h]
  rfl

theorem pySubscript_ne_nameError (j : Json) (k : String) :
    pySubscript j k ≠ Except.error PyErr.nameError := by
  unfold pySubscript
  split
  · split <;> simp
  · simp

theorem pyDictGet_ne_nameError (j : Json) (k : String) (d : Json) :
    pyDictGet j k d ≠ Except.error PyErr.nameError := by
  unfold pyDictGet
  split <;> simp

theorem pyIterate_ne_nameError (j : Json) :
    pyIterate j ≠ Except.error PyErr.nameError := by
  unfold pyIterate
  split <;> simp

theorem pyFloat_ne_nameError (j : Json) :
    pyFloat j ≠ Except.error PyErr.nameError := by
  unfold pyFloat
  split
  · simp
  · simp
  · split <;> simp
  · simp

theorem pyDate_ne_nameError (y m d : Int) :
    pyDate y m d ≠ Except.error PyErr.nameError := by
  unfold pyDate
  split
  · split <;> simp
  · simp

theorem mapM_ne_nameError {α β : Type} (f : α → Except PyErr β)
    (hf : ∀ a, f a ≠ Except.error PyErr.nameError) :
    ∀ (l : List α), l.mapM f ≠ Except.error PyErr.nameError := by
  intro l
  induction l with
  | nil => simp [List.mapM.loop, List.mapM, pure, Except.pure]
  | cons a as ih =>
    rw [List.mapM_cons]
    exact bind_ne_err (hf a)
      (fun x => bind_ne_err ih (fun xs => by simp [pure, Except.pure]))

theorem loadEntry_ne_nameError (inv : Json) :
    loadEntry inv ≠ Except.error PyErr.nameError := by
  unfold loadEntry
  refine bind_ne_err (pySubscript_ne_nameError _ _) fun dateJson => ?_
  refine bind_ne_err ?_ fun dateStr => ?_
  · cases dateJson <;> simp
  refine bind_ne_err (mapM_ne_nameError _ ?_ _) fun nums => ?_
  · intro p
    cases hp : pyIntChars p <;> simp [hp]
  refine bind_ne_err ?_ fun y => ?_
  · cases nums <;> simp
  refine bind_ne_err ?_ fun m => ?_
  · cases nums with
    | nil => simp
    | cons a t => cases t <;> simp
  refine bind_ne_err ?_ fun d => ?_
  · cases nums with
    | nil => simp
    | cons a t =>
      cases t with
      | nil => simp
      | cons b t2 => cases t2 <;> simp
  refine bind_ne_err (pyDate_ne_nameError _ _ _) fun date => ?_
  refine bind_ne_err (pySubscript_ne_nameError _ _) fun amountJson => ?_
  refine bind_ne_err (pyFloat_ne_nameError _) fun amount => ?_
  refine bind_ne_err (pySubscript_ne_nameError _ _) fun desc => ?_
  refine bind_ne_err (pySubscript_ne_nameError _ _) fun iid => ?_
  simp [pure, Except.pure]

theorem loadBody_ne_nameError (st : CalcState) (data : Json) :
    loadBody st data ≠ Except.error PyErr.nameError := by
  unfold loadBody
  refine bind_ne_err (pyDictGet_ne_nameError _ _ _) fun invsJson => ?_
  refine bind_ne_err (pyIterate_ne_nameError _) fun items => ?_
  refine bind_ne_err (mapM_ne_nameError _ loadEntry_ne_nameError _) fun invoices => ?_
  refine bind_ne_err (pyDictGet_ne_nameError _ _ _) fun fed => ?_
  refine bind_ne_err (pyDictGet_ne_nameError _ _ _) fun sr => ?_
  refine bind_ne_err (pyDictGet_ne_nameError _ _ _) fun code => ?_
  simp [pure, Except.pure]

theorem loadBody_raise_shape (st : CalcState) (data : Json) (e : PyErr)
    (h : loadBody st data = Except.error e) (hnc : caughtByLoad e = false) :
    e = PyErr.typeError ∨ e = PyErr.attributeError ∨ e = PyErr.overflowError := by
  cases e with
  | valueError m => simp [caughtByLoad] at hnc
  | keyError => simp [caughtByLoad] at hnc
  | indexError => simp [caughtByLoad] at hnc
  | typeError => exact Or.inl rfl
  | attributeError => exact Or.inr (Or.inl rfl)
  | overflowError => exact Or.inr (Or.inr rfl)
  | nameError => exact absurd h (loadBody_ne_nameError st data)

theorem get_quarter_bounds_eval (year q sm em ld : Int)
    (hq : ¬(q < 1 ∨ q > 4))
    (hsm : (q - 1) * 3 + 1 = sm) (hem : q * 3 = em)
    (hld : daysInMonth year em = ld)
    (hs : pyDate year sm 1 = Except.ok ⟨year, sm, 1⟩)
    (he : pyDate year em ld = Except.ok ⟨year, em, ld⟩) :
    get_quarter_bounds year q = Except.ok (⟨year, sm, 1⟩, ⟨year, em, ld⟩) := by
  unfold get_quarter_bounds
  rw [if_neg hq]
  rw [show (q - 1) * 3 + 1 = sm from hsm, show q * 3 = em from hem]
  dsimp only
  rw [hld, hs, ok_bind, he, ok_bind]
  rfl

/-! ## Claims -/

/-- C1, counterexample: the claim states that an invalid quarter is
returned to the caller as a boolean-success-plus-message failure result and
that no exception crosses the component boundary.  On the code, calling a
quarter-dependent operation with quarter 5 yields a raised `ValueError`
("Quarter must be between 1 and 4") that propagates out of
`get_quarter_bounds` and out of `generate_quarterly_report` — an exception,
not a (success, message) pair. -/
theorem C1_counterexample :
    get_quarter_bounds 2024 5 =
      Except.error (PyErr.valueError "Quarter must be between 1 and 4") ∧
    generate_quarterly_report initialState 2024 (some 5) =
      Except.error (PyErr.valueError "Quarter must be between 1 and 4") := by
  constructor <;> rfl

/-- C1, amended: for every year and every quarter outside 1..4,
`get_quarter_bounds` raises `ValueError("Quarter must be between 1 and
4")`, and the exception propagates unchanged through
`get_quarterly_earnings`, both quarterly taxes and
`generate_quarterly_report`; it is not converted into a
boolean-success-plus-message result by any of these operations. -/
theorem C1_amended (st : CalcState) (year quarter : Int)
    (h : quarter < 1 ∨ quarter > 4) :
    get_quarter_bounds year quarter =
      Except.error (PyErr.valueError "Quarter must be between 1 and 4") ∧
    get_quarterly_earnings st.invoices year quarter =
      Except.error (PyErr.valueError "Quarter must be between 1 and 4") ∧
    calculate_quarterly_federal_tax st year quarter =
      Except.error (PyErr.valueError "Quarter must be between 1 and 4") ∧
    calculate_quarterly_state_tax st year quarter =
      Except.error (PyErr.valueError "Quarter must be between 1 and 4") ∧
    generate_quarterly_report st year (some quarter) =
      Except.error (PyErr.valueError "Quarter must be between 1 and 4") := by
  have hb : get_quarter_bounds year quarter =
      Except.error (PyErr.valueError "Quarter must be between 1 and 4") := by
    unfold get_quarter_bounds
    rw [if_pos h]
  have hq : get_quarterly_earnings st.invoices year quarter =
      Except.error (PyErr.valueError "Quarter must be between 1 and 4") := by
    simp [get_quarterly_earnings, hb, error_bind]
  refine ⟨hb, hq, ?_, ?_, ?_⟩
  · simp [calculate_quarterly_federal_tax, hq, error_bind]
  · simp [calculate_quarterly_state_tax, hq, error_bind]
  · simp [generate_quarterly_report, List.mapM.loop, hq, error_bind,
      Functor.map, Except.map, calculate_quarterly_federal_tax,
      calculate_quarterly_state_tax]

/-- C1, witness for the amended theorem at quarter 5. -/
theorem C1_amended_witness :
    ((5:Int) < 1 ∨ (5:Int) > 4) ∧
    get_quarter_bounds 2024 5 =
      Except.error (PyErr.valueError "Quarter must be between 1 and 4") ∧
    get_quarterly_earnings initialState.invoices 2024 5 =
      Except.error (PyErr.valueError "Quarter must be between 1 and 4") ∧
    calculate_quarterly_federal_tax initialState 2024 5 =
      Except.error (PyErr.valueError "Quarter must be between 1 and 4") ∧
    calculate_quarterly_state_tax initialState 2024 5 =
      Except.error (PyErr.valueError "Quarter must be between 1 and 4") ∧
    generate_quarterly_report initialState 2024 (some 5) =
      Except.error (PyErr.valueError "Quarter must be between 1 and 4") :=
  ⟨by norm_num, C1_amended initialState 2024 5 (by norm_num)⟩

/-- C2, counterexample: the claim states that `load()` never raises to the
caller for any content of the backing file.  A file whose JSON content is a
top-level array (here `[]`) parses fine, but `data.get('invoices', [])`
then raises an `AttributeError` that is not in the caught exception tuple
and propagates to the caller. -/
theorem C2_counterexample :
    load_invoices (some (Except.ok (Json.arr []))) initialState =
      Except.error PyErr.attributeError := rfl

/-- C2, amended: a missing file leaves the fresh state (empty collection,
default configuration) untouched and is not an error; a file with a JSON
syntax error, and any content on which the load loop hits one of the caught
exception classes (`KeyError`, `ValueError` from malformed or out-of-range
dates or unparseable amount strings, `IndexError` from short date part
lists), resets the in-memory invoice collection to empty without raising
and preserves no partially-parsed records; but `load()` CAN raise: every
raise is an uncaught `TypeError` or `AttributeError` from content of the
wrong JSON shape (top-level non-object, non-object invoice entry,
non-string date value, or null/array/object amount value), or an uncaught
`OverflowError` from a date component outside the C-int range of the
`datetime.date` constructor.  (The reset conjunct is scoped by
`dataAmountsModeled`: amount strings such as "nan" or "inf", which Python
loads as non-finite float amounts, are outside this rational-valued
model's number domain.) -/
theorem C2_amended (file : FileContent) (st : CalcState) :
    (file = none → load_invoices file st = Except.ok st) ∧
    (file = some (Except.error ()) →
      load_invoices file st = Except.ok { st with invoices := [] }) ∧
    (∀ data e, file = some (Except.ok data) →
      dataAmountsModeled data = true →
      loadBody st data = Except.error e → caughtByLoad e = true →
      load_invoices file st = Except.ok { st with invoices := [] }) ∧
    (∀ e, load_invoices file st = Except.error e →
      e = PyErr.typeError ∨ e = PyErr.attributeError ∨
        e = PyErr.overflowError) := by
  refine ⟨?_, ?_, ?_, ?_⟩
  · rintro rfl; rfl
  · rintro rfl; rfl
  · rintro data e rfl hmod hbody hcaught
    simp [load_invoices, hbody, hcaught]
  · intro e he
    match file with
    | none => simp [load_invoices] at he
    | some (Except.error u) => simp [load_invoices] at he
    | some (Except.ok data) =>
      simp only [load_invoices] at he
      cases hb : loadBody st data with
      | ok st2 => rw [hb] at he; simp at he
      | error e2 =>
        rw [hb] at he
        dsimp only at he
        by_cases hc : caughtByLoad e2 = true
        · rw [if_pos hc] at he
          simp at he
        · rw [if_neg hc] at he
          injection he with he2
          subst he2
          exact loadBody_raise_shape st data e2 hb (by simpa using hc)

/-- C2, witness for the amended theorem: the missing-file case, the
syntax-error case, a caught `KeyError` (entry without a date field)
resetting the collection, the raise classification at the top-level array
counterexample, and the raise classification at an out-of-C-int-range
date component ('99999999999-1-1', an uncaught `OverflowError`). -/
theorem C2_amended_witness :
    load_invoices none initialState = Except.ok initialState ∧
    load_invoices (some (Except.error ())) c3Witness =
      Except.ok { c3Witness with invoices := [] } ∧
    load_invoices (some (Except.ok c2CaughtDoc)) initialState =
      Except.ok { initialState with invoices := [] } ∧
    (PyErr.attributeError = PyErr.typeError ∨
      PyErr.attributeError = PyErr.attributeError ∨
      PyErr.attributeError = PyErr.overflowError) ∧
    (PyErr.overflowError = PyErr.typeError ∨
      PyErr.overflowError = PyErr.attributeError ∨
      PyErr.overflowError = PyErr.overflowError) :=
  ⟨(C2_amended none initialState).1 rfl,
   (C2_amended (some (Except.error ())) c3Witness).2.1 rfl,
   (C2_amended (some (Except.ok c2CaughtDoc)) initialState).2.2.1
     c2CaughtDoc PyErr.keyError rfl rfl rfl rfl,
   (C2_amended (some (Except.ok (Json.arr []))) initialState).2.2.2
     PyErr.attributeError rfl,
   (C2_amended (some (Except.ok c2OverflowDoc)) initialState).2.2.2
     PyErr.overflowError rfl⟩

/-- C3: round-trip persistence.  For every in-memory state (any invoice
list whose dates are calendar-valid — which `datetime.date` guarantees in
Python — and any configuration values), `save()` followed by `load()` on a
fresh instance pointed at the same backing file reproduces an equal state:
equal date, amount, description and invoice id for every invoice, and
equal `fed_tax_rate`, `state_tax_rate` and `state_code`. -/
theorem C3_roundtrip (st : CalcState)
    (h : ∀ inv ∈ st.invoices, inv.date.valid = true) :
    load_invoices (some (Except.ok (save_invoices st))) initialState =
      Except.ok st := by
  simp [load_invoices, loadBody_save st h]

/-- C3, witness at a two-invoice state with non-default configuration. -/
theorem C3_roundtrip_witness :
    (∀ inv ∈ c3Witness.invoices, inv.date.valid = true) ∧
    load_invoices (some (Except.ok (save_invoices c3Witness))) initialState =
      Except.ok c3Witness :=
  ⟨by decide, C3_roundtrip c3Witness (by decide)⟩

/-- C4: for every year in the `datetime` domain 1..9999 (leap or not) and
every quarter in 1..4, `get_quarter_bounds` returns the 1st of the first
month of the quarter and the actual last calendar day of the quarter's last
month: Jan 1 - Mar 31, Apr 1 - Jun 30, Jul 1 - Sep 30, Oct 1 - Dec 31.
Since the statement holds for every year it holds in particular for leap
and non-leap years (the quarter end months 3, 6, 9, 12 have
year-independent lengths). -/
theorem C4_quarter_bounds (year : Int) (h1 : 1 ≤ year) (h2 : year ≤ 9999) :
    get_quarter_bounds year 1 = Except.ok (⟨year, 1, 1⟩, ⟨year, 3, 31⟩) ∧
    get_quarter_bounds year 2 = Except.ok (⟨year, 4, 1⟩, ⟨year, 6, 30⟩) ∧
    get_quarter_bounds year 3 = Except.ok (⟨year, 7, 1⟩, ⟨year, 9, 30⟩) ∧
    get_quarter_bounds year 4 = Except.ok (⟨year, 10, 1⟩, ⟨year, 12, 31⟩) := by
  refine ⟨?_, ?_, ?_, ?_⟩
  · exact get_quarter_bounds_eval year 1 1 3 31 (by norm_num) (by norm_num)
      (by norm_num) (by norm_num [daysInMonth])
      (pyDate_ok _ _ _ h1 h2 (by norm_num) (by norm_num) (by norm_num)
        (by norm_num [daysInMonth]))
      (pyDate_ok _ _ _ h1 h2 (by norm_num) (by norm_num) (by norm_num)
        (by norm_num [daysInMonth]))
  · exact get_quarter_bounds_eval year 2 4 6 30 (by norm_num) (by norm_num)
      (by norm_num) (by norm_num [daysInMonth])
      (pyDate_ok _ _ _ h1 h2 (by norm_num) (by norm_num) (by norm_num)
        (by norm_num [daysInMonth]))
      (pyDate_ok _ _ _ h1 h2 (by norm_num) (by norm_num) (by norm_num)
        (by norm_num [daysInMonth]))
  · exact get_quarter_bounds_eval year 3 7 9 30 (by norm_num) (by norm_num)
      (by norm_num) (by norm_num [daysInMonth])
      (pyDate_ok _ _ _ h1 h2 (by norm_num) (by norm_num) (by norm_num)
        (by norm_num [daysInMonth]))
      (pyDate_ok _ _ _ h1 h2 (by norm_num) (by norm_num) (by norm_num)
        (by norm_num [daysInMonth]))
  · exact get_quarter_bounds_eval year 4 10 12 31 (by norm_num) (by norm_num)
      (by norm_num) (by norm_num [daysInMonth])
      (pyDate_ok _ _ _ h1 h2 (by norm_num) (by norm_num) (by norm_num)
        (by norm_num [daysInMonth]))
      (pyDate_ok _ _ _ h1 h2 (by norm_num) (by norm_num) (by norm_num)
        (by norm_num [daysInMonth]))

/-- C4, witness at a leap year (2024) and a non-leap year (2023). -/
theorem C4_quarter_bounds_witness :
    ((1:Int) ≤ 2024 ∧ (2024:Int) ≤ 9999) ∧
    (get_quarter_bounds 2024 1 = Except.ok (⟨2024, 1, 1⟩, ⟨2024, 3, 31⟩) ∧
     get_quarter_bounds 2024 2 = Except.ok (⟨2024, 4, 1⟩, ⟨2024, 6, 30⟩) ∧
     get_quarter_bounds 2024 3 = Except.ok (⟨2024, 7, 1⟩, ⟨2024, 9, 30⟩) ∧
     get_quarter_bounds 2024 4 = Except.ok (⟨2024, 10, 1⟩, ⟨2024, 12, 31⟩)) ∧
    (get_quarter_bounds 2023 1 = Except.ok (⟨2023, 1, 1⟩, ⟨2023, 3, 31⟩) ∧
     get_quarter_bounds 2023 2 = Except.ok (⟨2023, 4, 1⟩, ⟨2023, 6, 30⟩) ∧
     get_quarter_bounds 2023 3 = Except.ok (⟨2023, 7, 1⟩, ⟨2023, 9, 30⟩) ∧
     get_quarter_bounds 2023 4 = Except.ok (⟨2023, 10, 1⟩, ⟨2023, 12, 31⟩)) :=
  ⟨by norm_num,
   C4_quarter_bounds 2024 (by norm_num) (by norm_num),
   C4_quarter_bounds 2023 (by norm_num) (by norm_num)⟩

/-- C5: for every invoice collection, valid year and quarter whose bounds
are (s, e), `get_quarterly_earnings` returns exactly the sum of the
amounts of the invoices whose date satisfies the closed-interval comparison
s <= date <= e (boundary dates included), and `get_yearly_earnings`
likewise sums over Jan 1 <= date <= Dec 31 of the year. -/
theorem C5_interval_sums (invs : List Invoice) (year quarter : Int)
    (s e : Date) (hb : get_quarter_bounds year quarter = Except.ok (s, e))
    (h1 : 1 ≤ year) (h2 : year ≤ 9999) :
    get_quarterly_earnings invs year quarter =
      Except.ok (((invs.filter (fun i => dateLe s i.date && dateLe i.date e)).map
        Invoice.amount).sum) ∧
    get_yearly_earnings invs year =
      Except.ok (((invs.filter (fun i =>
        dateLe ⟨year, 1, 1⟩ i.date && dateLe i.date ⟨year, 12, 31⟩)).map
          Invoice.amount).sum) := by
  constructor
  · simp [get_quarterly_earnings, hb, ok_bind, earningsLoop_eq_sum]
  · have p1 : pyDate year 1 1 = Except.ok ⟨year, 1, 1⟩ :=
      pyDate_ok year 1 1 h1 h2 (by norm_num) (by norm_num) (by norm_num)
        (by norm_num [daysInMonth])
    have p2 : pyDate year 12 31 = Except.ok ⟨year, 12, 31⟩ :=
      pyDate_ok year 12 31 h1 h2 (by norm_num) (by norm_num) (by norm_num)
        (by norm_num [daysInMonth])
    simp [get_yearly_earnings, p1, p2, ok_bind, earningsLoop_eq_sum]

/-- C5, witness on a concrete two-invoice collection (one invoice inside
2024 Q1, one outside). -/
theorem C5_interval_sums_witness :
    get_quarter_bounds 2024 1 = Except.ok (⟨2024, 1, 1⟩, ⟨2024, 3, 31⟩) ∧
    get_quarterly_earnings c3Witness.invoices 2024 1 =
      Except.ok (((c3Witness.invoices.filter (fun i =>
        dateLe ⟨2024, 1, 1⟩ i.date && dateLe i.date ⟨2024, 3, 31⟩)).map
          Invoice.amount).sum) ∧
    get_yearly_earnings c3Witness.invoices 2024 =
      Except.ok (((c3Witness.invoices.filter (fun i =>
        dateLe ⟨2024, 1, 1⟩ i.date && dateLe i.date ⟨2024, 12, 31⟩)).map
          Invoice.amount).sum) :=
  ⟨rfl,
   (C5_interval_sums c3Witness.invoices 2024 1 ⟨2024, 1, 1⟩ ⟨2024, 3, 31⟩
     rfl (by norm_num) (by norm_num)).1,
   (C5_interval_sums c3Witness.invoices 2024 1 ⟨2024, 1, 1⟩ ⟨2024, 3, 31⟩
     rfl (by norm_num) (by norm_num)).2⟩

/-- C6: for every valid year and invoice collection,
`calculate_sep_401k_limit` returns the yearly earnings E, the potential
contribution E * 0.20 (fixed rate), the actual contribution
min(E * 0.20, 69000) with the fixed ceiling 69000, and a contribution
percent that is 0 when E = 0 (division guarded) and
actual / E * 100 otherwise; when E = 0 the actual contribution is 0. -/
theorem C6_sep_limit (invs : List Invoice) (year : Int)
    (h1 : 1 ≤ year) (h2 : year ≤ 9999) :
    ∃ E, get_yearly_earnings invs year = Except.ok E ∧
      calculate_sep_401k_limit invs year = Except.ok
        ⟨E, E * 0.20, min (E * 0.20) 69000, 69000,
          if E = 0 then 0 else min (E * 0.20) 69000 / E * 100⟩ ∧
      (E = 0 → min (E * 0.20) 69000 = 0) := by
  have p1 : pyDate year 1 1 = Except.ok ⟨year, 1, 1⟩ :=
    pyDate_ok year 1 1 h1 h2 (by norm_num) (by norm_num) (by norm_num)
      (by norm_num [daysInMonth])
  have p2 : pyDate year 12 31 = Except.ok ⟨year, 12, 31⟩ :=
    pyDate_ok year 12 31 h1 h2 (by norm_num) (by norm_num) (by norm_num)
      (by norm_num [daysInMonth])
  refine ⟨earningsLoop invs ⟨year, 1, 1⟩ ⟨year, 12, 31⟩, ?_, ?_, ?_⟩
  · simp [get_yearly_earnings, p1, p2, ok_bind]
  · simp [calculate_sep_401k_limit, get_yearly_earnings, p1, p2, ok_bind,
      pyMin_eq_min]
  · intro hE
    rw [hE]
    norm_num

/-- C6, witness at the empty collection (zero yearly earnings: percent and
actual contribution both 0, no division fault). -/
theorem C6_sep_limit_witness :
    ((1:Int) ≤ 2024 ∧ (2024:Int) ≤ 9999) ∧
    (∃ E, get_yearly_earnings [] 2024 = Except.ok E ∧
      calculate_sep_401k_limit [] 2024 = Except.ok
        ⟨E, E * 0.20, min (E * 0.20) 69000, 69000,
          if E = 0 then 0 else min (E * 0.20) 69000 / E * 100⟩ ∧
      (E = 0 → min (E * 0.20) 69000 = 0)) :=
  ⟨by norm_num, C6_sep_limit [] 2024 (by norm_num) (by norm_num)⟩

/-- C7: for every pair of rates and every prior configuration,
`set_tax_rates` applies all three configuration fields together when both
rates lie in [0, 1] (leaving the invoice list untouched), and otherwise
rejects with a failure message leaving the entire prior state — both rates
and the state code — unchanged; there is no partial update. -/
theorem C7_set_tax_rates_atomic (st : CalcState) (fedRate stateRate : Rat)
    (code : String) :
    (0 ≤ fedRate ∧ fedRate ≤ 1 ∧ 0 ≤ stateRate ∧ stateRate ≤ 1 →
      set_tax_rates st fedRate stateRate code =
        ((true, "Tax rates updated"),
          ⟨Json.num fedRate, Json.num stateRate, Json.str code, st.invoices⟩)) ∧
    (¬(0 ≤ fedRate ∧ fedRate ≤ 1 ∧ 0 ≤ stateRate ∧ stateRate ≤ 1) →
      set_tax_rates st fedRate stateRate code =
        ((false, "Tax rates must be between 0.0 and 1.0"), st)) := by
  obtain ⟨F, S, C, invs⟩ := st
  constructor <;> intro h <;> simp [set_tax_rates, h]

/-- C7, witness: an in-range update is applied in full, and `fed=1.5` is
rejected with the prior configuration intact. -/
theorem C7_set_tax_rates_witness :
    set_tax_rates initialState 0.25 0.06 "NY" =
      ((true, "Tax rates updated"),
        ⟨Json.num 0.25, Json.num 0.06, Json.str "NY", []⟩) ∧
    set_tax_rates initialState 1.5 0.05 "CA" =
      ((false, "Tax rates must be between 0.0 and 1.0"), initialState) :=
  ⟨(C7_set_tax_rates_atomic initialState 0.25 0.06 "NY").1 (by norm_num),
   (C7_set_tax_rates_atomic initialState 1.5 0.05 "CA").2 (by norm_num)⟩

/-- C8: evaluation of the table pass at the failing input.  The claim says
a data row whose date cannot be interpreted is skipped.  On the fixture
table: the row dated "15/03/2024" parses day/month/year to 2024-03-15 as
claimed, the row dated "2024-13-40" is skipped as claimed, but the row
dated "1/2" (a slash date that does not split into three parts) is NOT
skipped: no branch of the parser assigns or raises, so the stale `date`
local from the first row falls through and the row is emitted as a
candidate carrying the previous row's date 2024-03-15. -/
theorem C8_table_pass_stale_date :
    extract_from_pdf trivEngine c8Doc =
      [⟨⟨2024, 3, 15⟩, 100, "INV: 001", "USD", "001"⟩,
       ⟨⟨2024, 3, 15⟩, 300, "INV: 003", "USD", "003"⟩] := by
  rfl

/-- C9: the extractors never raise past their boundary: a failure when
opening the document, or any exception raised by the extraction body
(page-level or document-level), is caught and the call yields the empty
candidate list. -/
theorem C9_extractor_no_raise (re : ReEngine) (e : PyErr) (ps : List Page) :
    extract_from_pdf re (.openFail e) = [] ∧
    extract_from_remittance_advice re (.openFail e) = [] ∧
    (extractFromPdfBody re ps = Except.error e →
      extract_from_pdf re (.pages ps) = []) ∧
    (extractRemBody re ps = Except.error e →
      extract_from_remittance_advice re (.pages ps) = []) := by
  refine ⟨rfl, rfl, ?_, ?_⟩ <;> intro h <;>
    simp [extract_from_pdf, extract_from_remittance_advice, h]

/-- C9, witness: a page whose text extraction raises `TypeError` makes both
extraction bodies fail, and both extractors return the empty list. -/
theorem C9_extractor_no_raise_witness :
    extractFromPdfBody trivEngine [c9Page] = Except.error PyErr.typeError ∧
    extractRemBody trivEngine [c9Page] = Except.error PyErr.typeError ∧
    extract_from_pdf trivEngine (.pages [c9Page]) = [] ∧
    extract_from_remittance_advice trivEngine (.pages [c9Page]) = [] :=
  ⟨rfl, rfl,
   (C9_extractor_no_raise trivEngine PyErr.typeError [c9Page]).2.2.1 rfl,
   (C9_extractor_no_raise trivEngine PyErr.typeError [c9Page]).2.2.2 rfl⟩

/-- C10: auto-generated invoice ids are not unique across deletions.  Add
two invoices on 2024-03-15 (ids INV-20240315-0000 and INV-20240315-0001),
delete the first, then add a third on the same date: its generated sequence
suffix is the post-deletion collection size 1, so the store ends up holding
two invoices that both carry the id INV-20240315-0001. -/
theorem C10_duplicate_auto_ids :
    c10Final.invoices.map Invoice.invoice_id =
      [Json.str "INV-20240315-0001", Json.str "INV-20240315-0001"] ∧
    c10Final.invoices.length = 2 := by
  constructor <;> rfl

end InvoiceTax
